import Mathlib

/-!
Shallow embedding of the AstrBot mall plugin (src/main.py), covering the
data model (Product, Order, UserEmail, PaymentMethod, cart items, the
email-verification challenge), the persistence layer (DataManager with
in-memory dicts mirrored to JSON files, where a failed file write is
caught and only logged), and the operations the specification talks
about: payment-notification handling, automatic delivery, manual
delivery, order cancellation, the expiry sweep and one-shot payment
monitor, order creation for single purchases and cart checkout, and
email binding/verification.

Python dicts are modelled as association lists `List (String × α)`
(insertion order preserved, unique keys through insert-replace).
`datetime` values are modelled as integer timestamps; `datetime.now()`
becomes an explicit `now : ℤ` argument.  Prices and amounts (Python
floats used only for exact small decimals here) are modelled as `ℚ`.
Quantities are `ℤ` so that the non-negativity invariant is a statement,
not a typing artefact.  Random generation (card codes, verification
codes) and network results (gateway success, SMTP success, file-write
success) are explicit parameters.
-/

namespace Mall

/-- Association-list lookup, mirroring Python `d[k]` / `k in d`. -/
def lookupA {α : Type} (k : String) : List (String × α) → Option α
  | [] => none
  | kv :: t => if kv.1 = k then some kv.2 else lookupA k t

/-- Association-list insert/update, mirroring Python `d[k] = v`. -/
def insertA {α : Type} (k : String) (v : α) : List (String × α) → List (String × α)
  | [] => [(k, v)]
  | kv :: t => if kv.1 = k then (k, v) :: t else kv :: insertA k v t

/-- Association-list delete, mirroring Python `del d[k]` (keys are
unique in a dict, so dropping every binding of `k` is the same). -/
def removeA {α : Type} (k : String) (l : List (String × α)) : List (String × α) :=
  l.filter (fun kv => kv.1 != k)

@[simp] theorem lookupA_insertA_self {α : Type} (k : String) (v : α)
    (l : List (String × α)) : lookupA k (insertA k v l) = some v := by
  induction l with
  | nil => simp [lookupA, insertA]
  | cons kv t ih =>
    by_cases h : kv.1 = k
    · simp [lookupA, insertA, h]
    · simp [lookupA, insertA, h, ih]

theorem lookupA_insertA_ne {α : Type} {k k' : String} (hne : k' ≠ k) (v : α)
    (l : List (String × α)) : lookupA k' (insertA k v l) = lookupA k' l := by
  have hkk : k ≠ k' := Ne.symm hne
  induction l with
  | nil => simp [lookupA, insertA, hkk]
  | cons kv t ih =>
    by_cases h : kv.1 = k
    · simp [lookupA, insertA, h, hkk]
    · by_cases h2 : kv.1 = k'
      · simp [lookupA, insertA, h, h2, hne]
      · simp [lookupA, insertA, h, h2, ih]

@[simp] theorem lookupA_removeA_self {α : Type} (k : String)
    (l : List (String × α)) : lookupA k (removeA k l) = none := by
  induction l with
  | nil => rfl
  | cons kv t ih =>
    by_cases h : kv.1 = k
    · simpa [removeA, h] using ih
    · simpa [removeA, lookupA, h] using ih

theorem lookupA_removeA_ne {α : Type} {k k' : String} (hne : k' ≠ k)
    (l : List (String × α)) : lookupA k' (removeA k l) = lookupA k' l := by
  have hkk : k ≠ k' := Ne.symm hne
  induction l with
  | nil => rfl
  | cons kv t ih =>
    by_cases h : kv.1 = k
    · simpa [removeA, lookupA, h, hkk] using ih
    · by_cases h2 : kv.1 = k'
      · simp [removeA, lookupA, h, h2, hne]
      · simpa [removeA, lookupA, h, h2] using ih

theorem mem_insertA {α : Type} {x : String × α} {k : String} {v : α}
    {l : List (String × α)} (hx : x ∈ insertA k v l) : x = (k, v) ∨ x ∈ l := by
  induction l with
  | nil => simpa [insertA] using hx
  | cons kv t ih =>
    by_cases h : kv.1 = k
    · simp only [insertA, h, if_pos rfl] at hx
      rcases List.mem_cons.mp hx with h1 | h1
      · exact Or.inl h1
      · exact Or.inr (List.mem_cons_of_mem _ h1)
    · simp only [insertA, h, if_neg h] at hx
      rcases List.mem_cons.mp hx with h1 | h1
      · exact Or.inr (h1 ▸ List.mem_cons_self kv t)
      · rcases ih h1 with h2 | h2
        · exact Or.inl h2
        · exact Or.inr (List.mem_cons_of_mem _ h2)

/-! ## Data model (the `@dataclass` declarations of src/main.py) -/

/-- `Product` dataclass: id, name, price, quantity, delivery_type
(`"auto"` or `"manual"`), description, auto_delivery_content, status
(`"active"` / `"inactive"`). -/
structure Product where
  id : String
  name : String
  price : ℚ
  quantity : ℤ
  deliveryType : String
  description : String
  autoDeliveryContent : String
  status : String
deriving DecidableEq

/-- One entry of a cart (the dict appended by `add_to_cart` and copied
into `Order.cart_items` by `buy_cart`). -/
structure CartItem where
  productId : String
  name : String
  price : ℚ
  quantity : ℤ
  deliveryType : String
deriving DecidableEq

/-- `Order` dataclass.  Status is one of `"pending"`, `"paid"`,
`"delivered"`, `"cancelled"`, `"expired"`.  `cancelled_at`/`cancelled_by`
are injected into the order dict by `cancel_order`, `delivered_at` by the
delivery paths. -/
structure Order where
  orderNo : String
  userId : String
  productId : String
  productName : String
  quantity : ℤ
  amount : ℚ
  status : String
  deliveryType : String
  userEmail : String
  paymentUrl : String
  paymentMethod : String
  expireTime : Option ℤ
  createdAt : Option ℤ
  paidAt : Option ℤ
  deliveredAt : Option ℤ
  cancelledAt : Option ℤ
  cancelledBy : Option String
  cartItems : Option (List CartItem)
deriving DecidableEq

/-- `UserEmail` dataclass. -/
structure UserEmail where
  userId : String
  email : String
  verified : Bool
  verifiedAt : Option ℤ
deriving DecidableEq

/-- `PaymentMethod` dataclass (the `config` dict is irrelevant here). -/
structure PaymentMethod where
  id : String
  name : String
  ptype : String
  enabled : Bool
deriving DecidableEq

/-- The email-verification entry `bind_email` stores under key
`"verify_" ++ user_id` in the in-memory `self.temp_orders` dict. -/
structure VerifyData where
  code : String
  email : String
  expireTime : ℤ
deriving DecidableEq

/-- Plugin configuration values used by the modelled operations. -/
structure Config where
  adminEmail : String
  adminIds : List String
  paymentTimeout : ℤ
deriving DecidableEq

/-- Combined state: the `DataManager` in-memory dicts (`products`,
`orders`, `user_emails`, `payment_methods`, the memory-only `carts`),
the JSON files backing the first four (`disk…`), and the plugin's
in-memory `temp_orders` entries used for email verification. -/
structure MallState where
  products : List (String × Product)
  orders : List (String × Order)
  userEmails : List (String × UserEmail)
  paymentMethods : List (String × PaymentMethod)
  carts : List (String × List CartItem)
  tempVerify : List (String × VerifyData)
  diskProducts : List (String × Product)
  diskOrders : List (String × Order)
  diskUserEmails : List (String × UserEmail)
  diskPaymentMethods : List (String × PaymentMethod)
deriving DecidableEq

/-! ## Persistence (`DataManager._save_data` and the `save_*` wrappers)

`_save_data` opens the file and writes; any exception is caught and
logged (`except Exception as e: logger.error(...)`), so the caller can
never observe a failure.  `io : Bool` says whether the underlying write
succeeded; either way control returns normally to the caller. -/

def saveProducts (io : Bool) (s : MallState) : MallState :=
  if io then { s with diskProducts := s.products } else s

def saveOrders (io : Bool) (s : MallState) : MallState :=
  if io then { s with diskOrders := s.orders } else s

def saveUserEmails (io : Bool) (s : MallState) : MallState :=
  if io then { s with diskUserEmails := s.userEmails } else s

/-- Process restart: `DataManager.__init__` reloads the four JSON files
and starts with fresh, empty in-memory `carts` and (in `MallPlugin`)
`temp_orders`. -/
def restart (s : MallState) : MallState :=
  { products := s.diskProducts
    orders := s.diskOrders
    userEmails := s.diskUserEmails
    paymentMethods := s.diskPaymentMethods
    carts := []
    tempVerify := []
    diskProducts := s.diskProducts
    diskOrders := s.diskOrders
    diskUserEmails := s.diskUserEmails
    diskPaymentMethods := s.diskPaymentMethods }

/-! ## Externally visible effects (email / bot-message sends) -/

inductive Effect where
  | emailDelivery (toAddr : String) (orderNo : String) (content : String)
  | emailAdmin (toAddr : String) (orderNo : String)
  | msgAdmin (adminId : String) (orderNo : String)
  | emailVerifyCode (toAddr : String) (code : String)
deriving DecidableEq

/-! ## Payment signature (`PaymentService.generate_sign`, lines 245-252)

The canonical string: drop empty-valued parameters, sort by key, join
`k=v` with `&` skipping the `sign` key, then append `&key=<secret>`.
The MD5 digest applied to this string is kept abstract (`digest`). -/

/-- Lexicographic comparison by Unicode code point — the order Python's
`sorted` uses on strings. -/
def strLtAux : List Char → List Char → Bool
  | [], [] => false
  | [], _ :: _ => true
  | _ :: _, [] => false
  | a :: as, b :: bs =>
    if a.val < b.val then true
    else if b.val < a.val then false
    else strLtAux as bs

def strLt (a b : String) : Bool := strLtAux a.toList b.toList

def insertByKey (p : String × String) :
    List (String × String) → List (String × String)
  | [] => [p]
  | q :: t => if strLt p.1 q.1 then p :: q :: t else q :: insertByKey p t

def sortByKey : List (String × String) → List (String × String)
  | [] => []
  | p :: t => insertByKey p (sortByKey t)

def signBase (key : String) (params : List (String × String)) : String :=
  let ps := params.filter (fun kv => kv.2 != "")
  let pieces := ((sortByKey ps).filter (fun kv => kv.1 != "sign")).map
    (fun kv => kv.1 ++ "=" ++ kv.2)
  String.intercalate "&" pieces ++ "&key=" ++ key

def generateSign (digest : String → String) (key : String)
    (params : List (String × String)) : String :=
  digest (signBase key params)

/-! ## Automatic delivery (`MallPlugin._auto_deliver`, lines 740-796) -/

/-- Second half of `_auto_deliver`: content composition (the
admin-configured `auto_delivery_content`, else a generated card code
`gen`), buyer email (the in-bot message is dead code: `Order` has no
`user_unified_msg_origin` field, so `order_data.get(...)` is always
`None`), then the `"delivered"` transition and save. -/
def autoDeliverFinish (gen : String) (now : ℤ) (io : Bool) (orderNo : String)
    (od : Order) (s : MallState) : MallState × List Effect :=
  let fallback := "您的商品卡密：" ++ gen ++ "\n请妥善保管，勿泄露给他人"
  let content :=
    match lookupA od.productId s.products with
    | some p => if p.autoDeliveryContent != "" then p.autoDeliveryContent else fallback
    | none => fallback
  let od' := { od with status := "delivered", deliveredAt := some now }
  (saveOrders io { s with orders := insertA orderNo od' s.orders },
    [Effect.emailDelivery od.userEmail orderNo content])

/-- `_auto_deliver(order_no)`: under the product lock, if the product
exists and stock is short, log and stop (the order stays `"paid"` and
nothing changes); if the product exists with enough stock, decrement and
save products; if the product does not exist, skip the stock section
entirely.  Then `autoDeliverFinish`.  The `none` branch of the first
match is unreachable from `handle_payment_notify` (Python would raise
`KeyError`). -/
def autoDeliver (gen : String) (now : ℤ) (io : Bool) (orderNo : String)
    (s : MallState) : MallState × List Effect :=
  match lookupA orderNo s.orders with
  | none => (s, [])
  | some od =>
    match lookupA od.productId s.products with
    | some p =>
      if p.quantity < od.quantity then
        (s, [])
      else
        let products' :=
          insertA od.productId { p with quantity := p.quantity - od.quantity } s.products
        autoDeliverFinish gen now io orderNo od
          (saveProducts io { s with products := products' })
    | none => autoDeliverFinish gen now io orderNo od s

/-- `MallPlugin._notify_admin_for_manual_delivery` (lines 798-828):
email the configured admin address, then message every configured admin
id; no state change. -/
def notifyAdminManual (cfg : Config) (orderNo : String) (s : MallState) :
    MallState × List Effect :=
  match lookupA orderNo s.orders with
  | none => (s, [])
  | some _ =>
    (s, Effect.emailAdmin cfg.adminEmail orderNo ::
        cfg.adminIds.map (fun aid => Effect.msgAdmin aid orderNo))

/-! ## Payment notification (`MallPlugin.handle_payment_notify`, lines 716-738)

Takes only the order number: there is no signature parameter and no call
to any verification routine.  Unknown order or non-`"pending"` status
returns `False` unchanged; otherwise flip to `"paid"`, save, and run the
fulfillment path picked by `delivery_type`. -/
def handlePaymentNotify (gen : String) (cfg : Config) (now : ℤ) (io : Bool)
    (orderNo : String) (s : MallState) : Bool × MallState × List Effect :=
  match lookupA orderNo s.orders with
  | none => (false, s, [])
  | some od =>
    if od.status ≠ "pending" then (false, s, [])
    else
      let od' := { od with status := "paid", paidAt := some now }
      let s1 := saveOrders io { s with orders := insertA orderNo od' s.orders }
      if od'.deliveryType = "auto" then
        let r := autoDeliver gen now io orderNo s1
        (true, r.1, r.2)
      else
        let r := notifyAdminManual cfg orderNo s1
        (true, r.1, r.2)

/-! ## Expiry (`_cleanup_expired_orders` lines 350-372 and the one-shot
monitor `_start_payment_monitor` lines 700-713) -/

/-- The guard of the periodic sweep: `status == 'pending' and
expire_time and expire_time < current_time`. -/
def isExpiredPending (now : ℤ) (od : Order) : Bool :=
  od.status = "pending" &&
    (match od.expireTime with
     | some t => decide (t < now)
     | none => false)

def expireOrder (now : ℤ) (kv : String × Order) : String × Order :=
  if isExpiredPending now kv.2 then (kv.1, { kv.2 with status := "expired" })
  else kv

/-- One iteration of the 5-minute sweep: collect the pending orders past
expiry, set each to `"expired"`, and save orders only when the list was
non-empty. -/
def cleanupExpiredOrders (now : ℤ) (io : Bool) (s : MallState) : MallState :=
  if (s.orders.filter (fun kv => isExpiredPending now kv.2)).isEmpty then s
  else saveOrders io { s with orders := s.orders.map (expireOrder now) }

/-- The one-shot monitor fires after `payment_timeout` seconds: if the
order still exists and is still `"pending"`, set it to `"expired"` and
save (no clock comparison — the sleep itself is the deadline). -/
def paymentMonitorFire (io : Bool) (orderNo : String) (s : MallState) : MallState :=
  match lookupA orderNo s.orders with
  | none => s
  | some od =>
    if od.status = "pending" then
      saveOrders io
        { s with orders := insertA orderNo { od with status := "expired" } s.orders }
    else s

/-! ## Cancellation (`cancel_order`, lines 1209-1241) -/

inductive CancelResult where
  | notFound
  | noPermission
  | notPending
  | cancelled
deriving DecidableEq

def cancelOrder (now : ℤ) (io : Bool) (callerId : String) (isAdm : Bool)
    (orderNo : String) (s : MallState) : CancelResult × MallState :=
  match lookupA orderNo s.orders with
  | none => (.notFound, s)
  | some od =>
    if od.userId ≠ callerId ∧ ¬ isAdm then (.noPermission, s)
    else if od.status ≠ "pending" then (.notPending, s)
    else
      let od' :=
        { od with
          status := "cancelled"
          cancelledAt := some now
          cancelledBy := some (if od.userId = callerId then "user" else "admin") }
      (.cancelled, saveOrders io { s with orders := insertA orderNo od' s.orders })

/-! ## Manual delivery (`deliver_order`, lines 1244-1274) -/

inductive DeliverResult where
  | notFound
  | notPaid
  | delivered
deriving DecidableEq

/-- Admin manual delivery: requires current status `"paid"`; flips to
`"delivered"`, saves, then (best-effort) emails the buyer when delivery
content was supplied.  No inventory action. -/
def deliverOrder (now : ℤ) (io : Bool) (orderNo : String) (content : String)
    (s : MallState) : DeliverResult × MallState × List Effect :=
  match lookupA orderNo s.orders with
  | none => (.notFound, s, [])
  | some od =>
    if od.status ≠ "paid" then (.notPaid, s, [])
    else
      let od' := { od with status := "delivered", deliveredAt := some now }
      let s1 := saveOrders io { s with orders := insertA orderNo od' s.orders }
      if content ≠ "" then
        (.delivered, s1, [Effect.emailDelivery od.userEmail orderNo content])
      else (.delivered, s1, [])

/-! ## Order creation (`_create_final_order`, lines 630-698) -/

/-- The temp-order dict built by `buy_product`. -/
structure TempOrder where
  productId : String
  productName : String
  quantity : ℤ
  amount : ℚ
deriving DecidableEq

inductive CreateResult where
  | insufficientStock
  | gatewayFailed
  | created (orderNo : String)
deriving DecidableEq

def lastFour (u : String) : String :=
  String.mk (u.toList.drop (u.toList.length - 4))

def mkSingleOrderNo (now : ℤ) (userId : String) : String :=
  "ORD" ++ toString now ++ lastFour userId

/-- `_create_final_order`: re-check stock under the product lock (read
only — no decrement), build the pending order, call the gateway
(outcome `gatewayOk` / `payUrl`), and only on gateway success store the
order and save.  Stock shortage and gateway failure leave the state
untouched.  The `none` product branch is unreachable from `buy_product`
(Python would raise `KeyError`); it is mapped to the stock-failure
result. -/
def createFinalOrder (cfg : Config) (now : ℤ) (io : Bool) (gatewayOk : Bool)
    (payUrl : String) (tempOrder : TempOrder) (methodName : String)
    (userId userEmail : String) (s : MallState) : CreateResult × MallState :=
  match lookupA tempOrder.productId s.products with
  | none => (.insufficientStock, s)
  | some p =>
    if p.quantity < tempOrder.quantity then (.insufficientStock, s)
    else if ¬ gatewayOk then (.gatewayFailed, s)
    else
      let orderNo := mkSingleOrderNo now userId
      let od : Order :=
        { orderNo := orderNo, userId := userId, productId := tempOrder.productId
          productName := tempOrder.productName, quantity := tempOrder.quantity
          amount := tempOrder.amount, status := "pending"
          deliveryType := p.deliveryType, userEmail := userEmail
          paymentUrl := payUrl, paymentMethod := methodName
          expireTime := some (now + cfg.paymentTimeout), createdAt := some now
          paidAt := none, deliveredAt := none, cancelledAt := none
          cancelledBy := none, cartItems := none }
      (.created orderNo, saveOrders io { s with orders := insertA orderNo od s.orders })

/-! ## Cart checkout (`buy_cart`, lines 956-1071) -/

inductive CartBuyResult where
  | noEmail
  | emailUnverified
  | emptyCart
  | productUnavailable (name : String)
  | insufficientStock (name : String)
  | noPaymentMethod
  | gatewayFailed
  | created (orderNo : String)
deriving DecidableEq

/-- The per-item advisory check loop of `buy_cart`: first failure wins. -/
def checkCartStock (products : List (String × Product)) :
    List CartItem → Option CartBuyResult
  | [] => none
  | item :: rest =>
    match lookupA item.productId products with
    | none => some (.productUnavailable item.name)
    | some p =>
      if p.status ≠ "active" then some (.productUnavailable item.name)
      else if p.quantity < item.quantity then some (.insufficientStock item.name)
      else checkCartStock products rest

/-- Enabled payment methods in dict order (`(method_id, name)` pairs). -/
def availableMethods (pms : List (String × PaymentMethod)) : List (String × String) :=
  (pms.filter (fun kv => kv.2.enabled)).map (fun kv => (kv.1, kv.2.name))

def cartTotal (cart : List CartItem) : ℚ :=
  (cart.map (fun it => it.price * (it.quantity : ℚ))).sum

def cartOrderNo (now : ℤ) (userId : String) : String :=
  "CART" ++ toString now ++ lastFour userId

/-- The combined order record `buy_cart` builds: special product id
`"cart"`, mixed delivery, total = `sum(price * quantity)` over the cart,
and the cart items copied into `cart_items`. -/
def mkCartOrder (cfg : Config) (now : ℤ) (payUrl userId userEmail mname : String)
    (cart : List CartItem) : Order :=
  { orderNo := cartOrderNo now userId, userId := userId, productId := "cart"
    productName := "购物车商品"
    quantity := (cart.map (fun it => it.quantity)).sum
    amount := cartTotal cart, status := "pending"
    deliveryType := "mixed", userEmail := userEmail
    paymentUrl := payUrl, paymentMethod := mname
    expireTime := some (now + cfg.paymentTimeout)
    createdAt := some now, paidAt := none, deliveredAt := none
    cancelledAt := none, cancelledBy := none
    cartItems := some cart }

/-- `buy_cart`: verified email, non-empty cart, advisory per-item stock
check, first enabled payment method, combined order with
`total_amount = sum(price * quantity)` and the cart copied into
`cart_items`, gateway call; on gateway failure return with nothing
changed; on success store the order, save orders, and only then delete
the cart. -/
def buyCart (cfg : Config) (now : ℤ) (io : Bool) (gatewayOk : Bool)
    (payUrl : String) (userId : String) (s : MallState) :
    CartBuyResult × MallState :=
  match lookupA userId s.userEmails with
  | none => (.noEmail, s)
  | some ue =>
    if ¬ ue.verified then (.emailUnverified, s)
    else
      match lookupA userId s.carts with
      | none => (.emptyCart, s)
      | some cart =>
        if cart.isEmpty then (.emptyCart, s)
        else
          match checkCartStock s.products cart with
          | some r => (r, s)
          | none =>
            match availableMethods s.paymentMethods with
            | [] => (.noPaymentMethod, s)
            | (_mid, mname) :: _ =>
              if ¬ gatewayOk then (.gatewayFailed, s)
              else
                let od : Order := mkCartOrder cfg now payUrl userId ue.email mname cart
                let s1 := saveOrders io
                  { s with orders := insertA (cartOrderNo now userId) od s.orders }
                (.created (cartOrderNo now userId),
                 { s1 with carts := removeA userId s1.carts })

/-! ## Email binding (`bind_email` lines 1535-1582, `verify_email`
lines 1584-1615) -/

inductive BindResult where
  | serviceDisabled
  | codeSent
  | sendFailed
deriving DecidableEq

/-- `bind_email`: requires the email service configured; stores the
6-digit `code` with the target email and a 10-minute expiry under
`"verify_" ++ user_id` in the in-memory `temp_orders` dict, then sends
the code; if the send fails the entry is deleted again.  Nothing is
persisted to disk. -/
def bindEmail (emailEnabled : Bool) (sendOk : Bool) (code : String) (now : ℤ)
    (userId email : String) (s : MallState) : BindResult × MallState × List Effect :=
  if ¬ emailEnabled then (.serviceDisabled, s, [])
  else
    let key := "verify_" ++ userId
    let s1 :=
      { s with
        tempVerify :=
          insertA key { code := code, email := email, expireTime := now + 600 }
            s.tempVerify }
    if sendOk then (.codeSent, s1, [Effect.emailVerifyCode email code])
    else (.sendFailed, { s1 with tempVerify := removeA key s1.tempVerify },
          [Effect.emailVerifyCode email code])

inductive VerifyResult where
  | expiredOrMissing
  | wrongCode
  | verified
deriving DecidableEq

/-- `verify_email`: missing or expired entry is (re)moved and rejected;
a matching code stores the verified `UserEmail`, saves it to disk, and
deletes the challenge; a wrong code leaves the challenge in place. -/
def verifyEmail (now : ℤ) (io : Bool) (userId code : String) (s : MallState) :
    VerifyResult × MallState :=
  let key := "verify_" ++ userId
  match lookupA key s.tempVerify with
  | none => (.expiredOrMissing, s)
  | some vd =>
    if vd.expireTime < now then
      (.expiredOrMissing, { s with tempVerify := removeA key s.tempVerify })
    else if vd.code = code then
      let ue : UserEmail :=
        { userId := userId, email := vd.email, verified := true, verifiedAt := some now }
      let s1 := saveUserEmails io { s with userEmails := insertA userId ue s.userEmails }
      (.verified, { s1 with tempVerify := removeA key s1.tempVerify })
    else (.wrongCode, s)

/-! ## Frame lemmas for the save wrappers (they touch only `disk…`). -/

@[simp] theorem saveOrders_products (io : Bool) (s : MallState) :
    (saveOrders io s).products = s.products := by
  unfold saveOrders; split <;> rfl

@[simp] theorem saveOrders_orders (io : Bool) (s : MallState) :
    (saveOrders io s).orders = s.orders := by
  unfold saveOrders; split <;> rfl

@[simp] theorem saveOrders_userEmails (io : Bool) (s : MallState) :
    (saveOrders io s).userEmails = s.userEmails := by
  unfold saveOrders; split <;> rfl

@[simp] theorem saveOrders_paymentMethods (io : Bool) (s : MallState) :
    (saveOrders io s).paymentMethods = s.paymentMethods := by
  unfold saveOrders; split <;> rfl

@[simp] theorem saveOrders_carts (io : Bool) (s : MallState) :
    (saveOrders io s).carts = s.carts := by
  unfold saveOrders; split <;> rfl

@[simp] theorem saveOrders_tempVerify (io : Bool) (s : MallState) :
    (saveOrders io s).tempVerify = s.tempVerify := by
  unfold saveOrders; split <;> rfl

@[simp] theorem saveOrders_diskProducts (io : Bool) (s : MallState) :
    (saveOrders io s).diskProducts = s.diskProducts := by
  unfold saveOrders; split <;> rfl

@[simp] theorem saveOrders_diskOrders (io : Bool) (s : MallState) :
    (saveOrders io s).diskOrders = if io then s.orders else s.diskOrders := by
  unfold saveOrders; split <;> simp_all

@[simp] theorem saveOrders_diskUserEmails (io : Bool) (s : MallState) :
    (saveOrders io s).diskUserEmails = s.diskUserEmails := by
  unfold saveOrders; split <;> rfl

@[simp] theorem saveOrders_diskPaymentMethods (io : Bool) (s : MallState) :
    (saveOrders io s).diskPaymentMethods = s.diskPaymentMethods := by
  unfold saveOrders; split <;> rfl

@[simp] theorem saveProducts_products (io : Bool) (s : MallState) :
    (saveProducts io s).products = s.products := by
  unfold saveProducts; split <;> rfl

@[simp] theorem saveProducts_orders (io : Bool) (s : MallState) :
    (saveProducts io s).orders = s.orders := by
  unfold saveProducts; split <;> rfl

@[simp] theorem saveProducts_userEmails (io : Bool) (s : MallState) :
    (saveProducts io s).userEmails = s.userEmails := by
  unfold saveProducts; split <;> rfl

@[simp] theorem saveProducts_paymentMethods (io : Bool) (s : MallState) :
    (saveProducts io s).paymentMethods = s.paymentMethods := by
  unfold saveProducts; split <;> rfl

@[simp] theorem saveProducts_carts (io : Bool) (s : MallState) :
    (saveProducts io s).carts = s.carts := by
  unfold saveProducts; split <;> rfl

@[simp] theorem saveProducts_tempVerify (io : Bool) (s : MallState) :
    (saveProducts io s).tempVerify = s.tempVerify := by
  unfold saveProducts; split <;> rfl

@[simp] theorem saveProducts_diskProducts (io : Bool) (s : MallState) :
    (saveProducts io s).diskProducts
      = if io then s.products else s.diskProducts := by
  unfold saveProducts; split <;> simp_all

@[simp] theorem saveProducts_diskOrders (io : Bool) (s : MallState) :
    (saveProducts io s).diskOrders = s.diskOrders := by
  unfold saveProducts; split <;> rfl

@[simp] theorem saveProducts_diskUserEmails (io : Bool) (s : MallState) :
    (saveProducts io s).diskUserEmails = s.diskUserEmails := by
  unfold saveProducts; split <;> rfl

@[simp] theorem saveProducts_diskPaymentMethods (io : Bool) (s : MallState) :
    (saveProducts io s).diskPaymentMethods = s.diskPaymentMethods := by
  unfold saveProducts; split <;> rfl

@[simp] theorem saveUserEmails_products (io : Bool) (s : MallState) :
    (saveUserEmails io s).products = s.products := by
  unfold saveUserEmails; split <;> rfl

@[simp] theorem saveUserEmails_orders (io : Bool) (s : MallState) :
    (saveUserEmails io s).orders = s.orders := by
  unfold saveUserEmails; split <;> rfl

@[simp] theorem saveUserEmails_userEmails (io : Bool) (s : MallState) :
    (saveUserEmails io s).userEmails = s.userEmails := by
  unfold saveUserEmails; split <;> rfl

@[simp] theorem saveUserEmails_paymentMethods (io : Bool) (s : MallState) :
    (saveUserEmails io s).paymentMethods = s.paymentMethods := by
  unfold saveUserEmails; split <;> rfl

@[simp] theorem saveUserEmails_carts (io : Bool) (s : MallState) :
    (saveUserEmails io s).carts = s.carts := by
  unfold saveUserEmails; split <;> rfl

@[simp] theorem saveUserEmails_tempVerify (io : Bool) (s : MallState) :
    (saveUserEmails io s).tempVerify = s.tempVerify := by
  unfold saveUserEmails; split <;> rfl

@[simp] theorem saveUserEmails_diskProducts (io : Bool) (s : MallState) :
    (saveUserEmails io s).diskProducts = s.diskProducts := by
  unfold saveUserEmails; split <;> rfl

@[simp] theorem saveUserEmails_diskOrders (io : Bool) (s : MallState) :
    (saveUserEmails io s).diskOrders = s.diskOrders := by
  unfold saveUserEmails; split <;> rfl

@[simp] theorem saveUserEmails_diskUserEmails (io : Bool) (s : MallState) :
    (saveUserEmails io s).diskUserEmails
      = if io then s.userEmails else s.diskUserEmails := by
  unfold saveUserEmails; split <;> simp_all

@[simp] theorem saveUserEmails_diskPaymentMethods (io : Bool) (s : MallState) :
    (saveUserEmails io s).diskPaymentMethods = s.diskPaymentMethods := by
  unfold saveUserEmails; split <;> rfl

/-! ## Behaviour lemmas for the payment-notification path -/

/-- Unknown order number: `False`, nothing touched, nothing sent. -/
theorem handlePaymentNotify_unknown {gen : String} {cfg : Config} {now : ℤ}
    {io : Bool} {orderNo : String} {s : MallState}
    (h : lookupA orderNo s.orders = none) :
    handlePaymentNotify gen cfg now io orderNo s = (false, s, []) := by
  unfold handlePaymentNotify
  simp [h]

/-- Any non-`"pending"` order (paid, delivered, cancelled, expired):
`False`, nothing touched, nothing sent. -/
theorem handlePaymentNotify_final {gen : String} {cfg : Config} {now : ℤ}
    {io : Bool} {orderNo : String} {s : MallState} {od : Order}
    (hod : lookupA orderNo s.orders = some od) (hst : od.status ≠ "pending") :
    handlePaymentNotify gen cfg now io orderNo s = (false, s, []) := by
  unfold handlePaymentNotify
  simp [hod, hst]

@[simp] theorem notifyAdminManual_state (cfg : Config) (orderNo : String)
    (s : MallState) : (notifyAdminManual cfg orderNo s).1 = s := by
  unfold notifyAdminManual
  cases lookupA orderNo s.orders <;> rfl

@[simp] theorem autoDeliverFinish_products (gen : String) (now : ℤ) (io : Bool)
    (orderNo : String) (od : Order) (s : MallState) :
    (autoDeliverFinish gen now io orderNo od s).1.products = s.products := by
  simp [autoDeliverFinish]

theorem autoDeliverFinish_lookup_self (gen : String) (now : ℤ) (io : Bool)
    (orderNo : String) (od : Order) (s : MallState) :
    lookupA orderNo (autoDeliverFinish gen now io orderNo od s).1.orders
      = some { od with status := "delivered", deliveredAt := some now } := by
  simp [autoDeliverFinish]

theorem autoDeliverFinish_lookup_ne (gen : String) (now : ℤ) (io : Bool)
    {orderNo k : String} (hk : k ≠ orderNo) (od : Order) (s : MallState) :
    lookupA k (autoDeliverFinish gen now io orderNo od s).1.orders
      = lookupA k s.orders := by
  simp [autoDeliverFinish, lookupA_insertA_ne hk]

/-- The state written by the `pending → paid` flip, before fulfillment. -/
def paidState (now : ℤ) (io : Bool) (orderNo : String) (od : Order)
    (s : MallState) : MallState :=
  saveOrders io
    { s with orders :=
        insertA orderNo { od with status := "paid", paidAt := some now } s.orders }

theorem autoDeliver_eq_short {gen : String} {now : ℤ} {io : Bool}
    {orderNo : String} {s : MallState} {od : Order} {p : Product}
    (hod : lookupA orderNo s.orders = some od)
    (hpp : lookupA od.productId s.products = some p)
    (hq : p.quantity < od.quantity) :
    autoDeliver gen now io orderNo s = (s, []) := by
  unfold autoDeliver
  simp [hod, hpp, hq]

theorem autoDeliver_eq_success {gen : String} {now : ℤ} {io : Bool}
    {orderNo : String} {s : MallState} {od : Order} {p : Product}
    (hod : lookupA orderNo s.orders = some od)
    (hpp : lookupA od.productId s.products = some p)
    (hq : ¬ p.quantity < od.quantity) :
    autoDeliver gen now io orderNo s
      = autoDeliverFinish gen now io orderNo od
          (saveProducts io
            { s with products := insertA od.productId { p with quantity := p.quantity - od.quantity } s.products }) := by
  unfold autoDeliver
  simp [hod, hpp, hq]

theorem autoDeliver_eq_noProduct {gen : String} {now : ℤ} {io : Bool}
    {orderNo : String} {s : MallState} {od : Order}
    (hod : lookupA orderNo s.orders = some od)
    (hpp : lookupA od.productId s.products = none) :
    autoDeliver gen now io orderNo s = autoDeliverFinish gen now io orderNo od s := by
  unfold autoDeliver
  simp [hod, hpp]

theorem handlePaymentNotify_eq_auto {gen : String} {cfg : Config} {now : ℤ}
    {io : Bool} {orderNo : String} {s : MallState} {od : Order}
    (hod : lookupA orderNo s.orders = some od) (hp : od.status = "pending")
    (hd : od.deliveryType = "auto") :
    handlePaymentNotify gen cfg now io orderNo s
      = (true, autoDeliver gen now io orderNo (paidState now io orderNo od s)) := by
  unfold handlePaymentNotify paidState
  simp [hod, hp, hd]

theorem handlePaymentNotify_eq_manual {gen : String} {cfg : Config} {now : ℤ}
    {io : Bool} {orderNo : String} {s : MallState} {od : Order}
    (hod : lookupA orderNo s.orders = some od) (hp : od.status = "pending")
    (hd : od.deliveryType ≠ "auto") :
    handlePaymentNotify gen cfg now io orderNo s
      = (true, paidState now io orderNo od s,
         Effect.emailAdmin cfg.adminEmail orderNo ::
           cfg.adminIds.map (fun aid => Effect.msgAdmin aid orderNo)) := by
  unfold handlePaymentNotify notifyAdminManual paidState
  simp [hod, hp, hd]

@[simp] theorem paidState_lookup_self (now : ℤ) (io : Bool) (orderNo : String)
    (od : Order) (s : MallState) :
    lookupA orderNo (paidState now io orderNo od s).orders
      = some { od with status := "paid", paidAt := some now } := by
  simp [paidState]

theorem paidState_lookup_ne (now : ℤ) (io : Bool) {orderNo k : String}
    (hk : k ≠ orderNo) (od : Order) (s : MallState) :
    lookupA k (paidState now io orderNo od s).orders = lookupA k s.orders := by
  simp [paidState, lookupA_insertA_ne hk]

@[simp] theorem paidState_products (now : ℤ) (io : Bool) (orderNo : String)
    (od : Order) (s : MallState) :
    (paidState now io orderNo od s).products = s.products := by
  simp [paidState]

/-- After `_auto_deliver` the order is either untouched (stock shortage,
or the unreachable missing-order branch) or marked `"delivered"`. -/
theorem autoDeliver_status (gen : String) (now : ℤ) (io : Bool)
    (orderNo : String) (s : MallState) (od : Order)
    (hod : lookupA orderNo s.orders = some od) :
    lookupA orderNo (autoDeliver gen now io orderNo s).1.orders = some od ∨
    lookupA orderNo (autoDeliver gen now io orderNo s).1.orders
      = some { od with status := "delivered", deliveredAt := some now } := by
  cases hpp : lookupA od.productId s.products with
  | none => rw [autoDeliver_eq_noProduct hod hpp]; exact Or.inr (autoDeliverFinish_lookup_self ..)
  | some p =>
    by_cases hq : p.quantity < od.quantity
    · rw [autoDeliver_eq_short hod hpp hq]; exact Or.inl hod
    · rw [autoDeliver_eq_success hod hpp hq]; exact Or.inr (autoDeliverFinish_lookup_self ..)

/-- `_auto_deliver` never touches orders other than its own. -/
theorem autoDeliver_lookup_ne (gen : String) (now : ℤ) (io : Bool)
    {orderNo k : String} (hk : k ≠ orderNo) (s : MallState) :
    lookupA k (autoDeliver gen now io orderNo s).1.orders = lookupA k s.orders := by
  cases hod : lookupA orderNo s.orders with
  | none => unfold autoDeliver; rw [hod]
  | some od =>
    cases hpp : lookupA od.productId s.products with
    | none => rw [autoDeliver_eq_noProduct hod hpp, autoDeliverFinish_lookup_ne gen now io hk]
    | some p =>
      by_cases hq : p.quantity < od.quantity
      · rw [autoDeliver_eq_short hod hpp hq]
      · rw [autoDeliver_eq_success hod hpp hq, autoDeliverFinish_lookup_ne gen now io hk]
        simp

/-- A successful `pending → paid` notification: returns `True` and the
order ends `"paid"` (manual mode, or auto mode aborted by stock) or
`"delivered"` (auto mode). -/
theorem handlePaymentNotify_pending (gen : String) (cfg : Config) (now : ℤ)
    (io : Bool) (orderNo : String) (s : MallState) (od : Order)
    (hod : lookupA orderNo s.orders = some od) (hp : od.status = "pending") :
    (handlePaymentNotify gen cfg now io orderNo s).1 = true ∧
    ∃ od', lookupA orderNo (handlePaymentNotify gen cfg now io orderNo s).2.1.orders
        = some od' ∧ (od'.status = "paid" ∨ od'.status = "delivered") := by
  by_cases hd : od.deliveryType = "auto"
  · rw [handlePaymentNotify_eq_auto hod hp hd]
    refine ⟨rfl, ?_⟩
    have h1 := autoDeliver_status gen now io orderNo (paidState now io orderNo od s)
      { od with status := "paid", paidAt := some now } (by simp)
    rcases h1 with h | h
    · exact ⟨_, h, Or.inl rfl⟩
    · exact ⟨_, h, Or.inr rfl⟩
  · rw [handlePaymentNotify_eq_manual hod hp hd]
    exact ⟨rfl, ⟨{ od with status := "paid", paidAt := some now }, by simp, Or.inl rfl⟩⟩

/-- Orders other than the notified one are untouched by the callback. -/
theorem handlePaymentNotify_lookup_ne (gen : String) (cfg : Config) (now : ℤ)
    (io : Bool) {orderNo k : String} (hk : k ≠ orderNo) (s : MallState) :
    lookupA k (handlePaymentNotify gen cfg now io orderNo s).2.1.orders
      = lookupA k s.orders := by
  cases hod : lookupA orderNo s.orders with
  | none => rw [handlePaymentNotify_unknown hod]
  | some od =>
    by_cases hp : od.status = "pending"
    · by_cases hd : od.deliveryType = "auto"
      · rw [handlePaymentNotify_eq_auto hod hp hd]
        exact (autoDeliver_lookup_ne gen now io hk _).trans
          (paidState_lookup_ne now io hk od s)
      · rw [handlePaymentNotify_eq_manual hod hp hd]
        exact paidState_lookup_ne now io hk od s
    · rw [handlePaymentNotify_final hod hp]

/-! ## Lemmas for the expiry sweep -/

theorem expireOrder_fst (now : ℤ) (kv : String × Order) :
    (expireOrder now kv).1 = kv.1 := by
  unfold expireOrder; split <;> rfl

theorem expireOrder_snd (now : ℤ) (kv : String × Order) :
    (expireOrder now kv).2
      = if isExpiredPending now kv.2 then { kv.2 with status := "expired" }
        else kv.2 := by
  unfold expireOrder; split <;> simp_all

theorem lookupA_map_expireOrder (now : ℤ) (k : String) (l : List (String × Order)) :
    lookupA k (l.map (expireOrder now))
      = (lookupA k l).map
          (fun od => if isExpiredPending now od then { od with status := "expired" }
                     else od) := by
  induction l with
  | nil => rfl
  | cons kv t ih =>
    by_cases h : kv.1 = k
    · simp [lookupA, expireOrder_fst, h, expireOrder_snd]
    · simp [lookupA, expireOrder_fst, h, ih]

theorem filter_not_isEmpty_of_lookupA {α : Type} {k : String} {v : α}
    {l : List (String × α)} (h : lookupA k l = some v) (pred : α → Bool)
    (hv : pred v = true) :
    (l.filter (fun kv => pred kv.2)).isEmpty = false := by
  induction l with
  | nil => simp [lookupA] at h
  | cons kv t ih =>
    by_cases hk : kv.1 = k
    · have h2 : kv.2 = v := by simpa [lookupA, hk] using h
      rw [List.filter_cons, h2, hv]
      simp
    · simp only [lookupA, hk, if_neg hk] at h
      rw [List.filter_cons]
      cases hkv : pred kv.2 with
      | false => simpa using ih h
      | true => simp

/-! ## Concrete fixtures used by counterexamples and witnesses -/

def cfg0 : Config :=
  { adminEmail := "admin@example.com", adminIds := ["A1"], paymentTimeout := 60 }

def prodAuto : Product :=
  { id := "1", name := "AutoProd", price := 10, quantity := 5
    deliveryType := "auto", description := "", autoDeliveryContent := "KEY-123"
    status := "active" }

def prodManual : Product :=
  { id := "2", name := "ManualProd", price := 3, quantity := 5
    deliveryType := "manual", description := "", autoDeliveryContent := ""
    status := "active" }

def mkOrder (no pid pname : String) (qty : ℤ) (amt : ℚ) (dtype : String) : Order :=
  { orderNo := no, userId := "user1234", productId := pid, productName := pname
    quantity := qty, amount := amt, status := "pending", deliveryType := dtype
    userEmail := "u@example.com", paymentUrl := "P", paymentMethod := "支付宝"
    expireTime := some 160, createdAt := some 100, paidAt := none
    deliveredAt := none, cancelledAt := none, cancelledBy := none
    cartItems := none }

def ordAuto : Order := mkOrder "ORD1" "1" "AutoProd" 1 10 "auto"

def ordAutoBig : Order := mkOrder "ORDA" "1" "AutoProd" 7 70 "auto"

def ordManual : Order := mkOrder "ORDM" "2" "ManualProd" 1 3 "manual"

def ordDelivered : Order :=
  { mkOrder "ORDD" "2" "ManualProd" 1 3 "manual" with
    status := "delivered", paidAt := some 110, deliveredAt := some 120 }

def ueVerified : UserEmail :=
  { userId := "user1234", email := "u@example.com", verified := true
    verifiedAt := some 50 }

def pmAlipay : PaymentMethod :=
  { id := "alipay", name := "支付宝", ptype := "alipay", enabled := true }

def baseState : MallState :=
  { products := [("1", prodAuto), ("2", prodManual)]
    orders := [("ORD1", ordAuto), ("ORDA", ordAutoBig), ("ORDM", ordManual),
               ("ORDD", ordDelivered)]
    userEmails := [("user1234", ueVerified)]
    paymentMethods := [("alipay", pmAlipay)]
    carts := []
    tempVerify := []
    diskProducts := [("1", prodAuto), ("2", prodManual)]
    diskOrders := [("ORD1", ordAuto), ("ORDA", ordAutoBig), ("ORDM", ordManual),
                   ("ORDD", ordDelivered)]
    diskUserEmails := [("user1234", ueVerified)]
    diskPaymentMethods := [("alipay", pmAlipay)] }

/-- A cart with two line items (products 1 and 2), as in the cart
checkout scenario of the specification. -/
def cartTwo : List CartItem :=
  [{ productId := "1", name := "AutoProd", price := 10, quantity := 1
     deliveryType := "auto" },
   { productId := "2", name := "ManualProd", price := 3, quantity := 2
     deliveryType := "manual" }]

def cartState : MallState := { baseState with carts := [("user1234", cartTwo)] }

/-- Classification of effects: a buyer-facing delivery (auto-delivery
email with the purchased content). -/
def isBuyerDelivery : Effect → Bool
  | .emailDelivery _ _ _ => true
  | _ => false

/-- Classification of effects: the operator notification of the manual
fulfillment path. -/
def isOperatorNotice : Effect → Bool
  | .emailAdmin _ _ => true
  | _ => false

/-- The canonical parameter set of a payment notification for order
`ORD1` (amount 10.00), and the same notification with the amount field
tampered to 0.01. -/
def genuineNotifyParams : List (String × String) :=
  [("pid", "1001"), ("type", "alipay"), ("out_trade_no", "ORD1"),
   ("notify_url", "N"), ("return_url", "R"), ("name", "AutoProd"),
   ("money", "10.00"), ("sitename", "AstrBot商城"), ("device", "pc")]

def tamperedNotifyParams : List (String × String) :=
  [("pid", "1001"), ("type", "alipay"), ("out_trade_no", "ORD1"),
   ("notify_url", "N"), ("return_url", "R"), ("name", "AutoProd"),
   ("money", "0.01"), ("sitename", "AstrBot商城"), ("device", "pc")]

/-- C1: the claim says a payment notification's signature is recomputed
and verified before any order state is mutated, and that a notification
with an altered amount is rejected leaving the order unchanged.  The
code's `handle_payment_notify` receives only the order number, consults
no parameter and recomputes no signature: processing the tampered
notification (whose canonical signing string provably differs from the
genuine one, so any recomputation would expose it) succeeds and drives
the pending order `ORD1` all the way to `"paid"` and then `"delivered"`,
mutating it with no verification at all. -/
theorem c1_notification_processed_without_signature_check :
    signBase "SECRET" tamperedNotifyParams ≠ signBase "SECRET" genuineNotifyParams ∧
    (Option.map Order.status (lookupA "ORD1" baseState.orders) = some "pending") ∧
    (handlePaymentNotify "G" cfg0 200 true "ORD1" baseState).1 = true ∧
    Option.map Order.status
        (lookupA "ORD1" (handlePaymentNotify "G" cfg0 200 true "ORD1" baseState).2.1.orders)
      = some "delivered" := by
  refine ⟨by decide, by decide, by decide, by decide⟩

/-- C10: an unknown order number makes `handle_payment_notify` return
`False` with no state change and no effect — exactly the same result
triple shape (`False`, untouched state, no effects) produced when the
order exists but is no longer pending, so the caller cannot tell the two
apart from the result. -/
theorem c10_unknown_order_same_false_as_final (gen : String) (cfg : Config)
    (now : ℤ) (io : Bool) (orderNo : String) (s : MallState) :
    (lookupA orderNo s.orders = none →
      handlePaymentNotify gen cfg now io orderNo s = (false, s, [])) ∧
    (∀ od, lookupA orderNo s.orders = some od → od.status ≠ "pending" →
      handlePaymentNotify gen cfg now io orderNo s = (false, s, [])) := by
  exact ⟨fun h => handlePaymentNotify_unknown h,
         fun _ hod hst => handlePaymentNotify_final hod hst⟩

/-- Witness for C10: the unknown order number `"NOPE"` and the
already-delivered order `"ORDD"` both yield the identical benign triple. -/
theorem c10_witness :
    handlePaymentNotify "G" cfg0 200 true "NOPE" baseState = (false, baseState, []) ∧
    handlePaymentNotify "G" cfg0 200 true "ORDD" baseState = (false, baseState, []) :=
  ⟨(c10_unknown_order_same_false_as_final "G" cfg0 200 true "NOPE" baseState).1
      (by decide),
   (c10_unknown_order_same_false_as_final "G" cfg0 200 true "ORDD" baseState).2
      ordDelivered (by decide) (by decide)⟩

/-- C2: a duplicate `pending → paid` callback runs fulfillment exactly
once — the first call returns `True` and emits the single fulfillment
effect (the buyer delivery in auto mode with stock, or the operator
notice in manual mode), while the second call finds the order no longer
`"pending"` and is a benign no-op `(False, unchanged state, no effects)`;
more generally any callback against a non-`"pending"` (terminal-side)
status is that same benign no-op rather than an error. -/
theorem c2_duplicate_callback_fulfills_once (gen gen₂ : String) (cfg : Config)
    (now now₂ : ℤ) (io io₂ : Bool) (orderNo : String) (s : MallState)
    (od : Order) (hod : lookupA orderNo s.orders = some od) :
    (od.status ≠ "pending" →
      handlePaymentNotify gen cfg now io orderNo s = (false, s, [])) ∧
    (od.status = "pending" →
      (handlePaymentNotify gen cfg now io orderNo s).1 = true ∧
      handlePaymentNotify gen₂ cfg now₂ io₂ orderNo
          (handlePaymentNotify gen cfg now io orderNo s).2.1
        = (false, (handlePaymentNotify gen cfg now io orderNo s).2.1, [])) ∧
    (od.status = "pending" → od.deliveryType ≠ "auto" →
      ((handlePaymentNotify gen cfg now io orderNo s).2.2.filter isOperatorNotice).length
        = 1) ∧
    (od.status = "pending" → od.deliveryType = "auto" →
      ∀ p, lookupA od.productId s.products = some p → ¬ p.quantity < od.quantity →
        ((handlePaymentNotify gen cfg now io orderNo s).2.2.filter isBuyerDelivery).length
          = 1) := by
  refine ⟨fun hst => handlePaymentNotify_final hod hst, fun hp => ?_,
    fun hp hd => ?_, fun hp hd p hpp hq => ?_⟩
  · obtain ⟨h1, od', hod', hst'⟩ :=
      handlePaymentNotify_pending gen cfg now io orderNo s od hod hp
    refine ⟨h1, handlePaymentNotify_final hod' ?_⟩
    rcases hst' with h | h <;> simp [h]
  · rw [handlePaymentNotify_eq_manual hod hp hd]
    simp [isOperatorNotice, List.filter_map, Function.comp_def]
  · rw [handlePaymentNotify_eq_auto hod hp hd]
    have hod1 : lookupA orderNo (paidState now io orderNo od s).orders
        = some { od with status := "paid", paidAt := some now } := by simp
    have hpp1 : lookupA ({ od with status := "paid", paidAt := some now } : Order).productId
        (paidState now io orderNo od s).products = some p := by simpa using hpp
    have hq1 : ¬ p.quantity < ({ od with status := "paid", paidAt := some now } : Order).quantity := hq
    have h := @autoDeliver_eq_success gen now io orderNo _ _ _ hod1 hpp1 hq1
    rw [show (true, autoDeliver gen now io orderNo (paidState now io orderNo od s)).2.2
          = (autoDeliver gen now io orderNo (paidState now io orderNo od s)).2 from rfl, h]
    simp [autoDeliverFinish, isBuyerDelivery]

/-- Witness for C2: the auto order `ORD1` and the manual order `ORDM`
of the fixture state. -/
theorem c2_witness :
    (handlePaymentNotify "G" cfg0 200 true "ORD1" baseState).1 = true ∧
    handlePaymentNotify "G" cfg0 300 true "ORD1"
        (handlePaymentNotify "G" cfg0 200 true "ORD1" baseState).2.1
      = (false, (handlePaymentNotify "G" cfg0 200 true "ORD1" baseState).2.1, []) ∧
    ((handlePaymentNotify "G" cfg0 200 true "ORDM" baseState).2.2.filter
        isOperatorNotice).length = 1 ∧
    ((handlePaymentNotify "G" cfg0 200 true "ORD1" baseState).2.2.filter
        isBuyerDelivery).length = 1 := by
  refine ⟨?_, ?_, ?_, ?_⟩
  · exact ((c2_duplicate_callback_fulfills_once "G" "G" cfg0 200 300 true true
      "ORD1" baseState ordAuto (by decide)).2.1 (by decide)).1
  · exact ((c2_duplicate_callback_fulfills_once "G" "G" cfg0 200 300 true true
      "ORD1" baseState ordAuto (by decide)).2.1 (by decide)).2
  · exact (c2_duplicate_callback_fulfills_once "G" "G" cfg0 200 300 true true
      "ORDM" baseState ordManual (by decide)).2.2.1 (by decide) (by decide)
  · exact (c2_duplicate_callback_fulfills_once "G" "G" cfg0 200 300 true true
      "ORD1" baseState ordAuto (by decide)).2.2.2 (by decide) (by decide)
      prodAuto (by decide) (by decide)

/-- The products component after `_auto_deliver`: either untouched, or
one product decremented after passing the `quantity >= ordered` check. -/
theorem autoDeliver_products_cases (gen : String) (now : ℤ) (io : Bool)
    (orderNo : String) (s : MallState) :
    (autoDeliver gen now io orderNo s).1.products = s.products ∨
    ∃ od p, lookupA orderNo s.orders = some od ∧
      lookupA od.productId s.products = some p ∧
      ¬ p.quantity < od.quantity ∧
      (autoDeliver gen now io orderNo s).1.products
        = insertA od.productId { p with quantity := p.quantity - od.quantity }
            s.products := by
  rcases hod : lookupA orderNo s.orders with _ | od
  · left; unfold autoDeliver; rw [hod]
  · rcases hpp : lookupA od.productId s.products with _ | p
    · left; rw [autoDeliver_eq_noProduct hod hpp]; simp
    · by_cases hq : p.quantity < od.quantity
      · left; rw [autoDeliver_eq_short hod hpp hq]
      · right
        refine ⟨od, p, hod ▸ rfl, hpp ▸ rfl, hq, ?_⟩
        rw [autoDeliver_eq_success hod hpp hq]
        simp

theorem autoDeliver_products_nonneg (gen : String) (now : ℤ) (io : Bool)
    (orderNo : String) (s : MallState)
    (hnn : ∀ kv ∈ s.products, 0 ≤ kv.2.quantity) :
    ∀ kv ∈ (autoDeliver gen now io orderNo s).1.products, 0 ≤ kv.2.quantity := by
  rcases autoDeliver_products_cases gen now io orderNo s with h | ⟨od, p, _, _, hq, h⟩
  · rw [h]; exact hnn
  · rw [h]
    intro kv hkv
    rcases mem_insertA hkv with h1 | h1
    · rw [h1]
      simpa using by omega
    · exact hnn kv h1

/-- C3: the quantity of a product is never driven negative.  The only
stock decrement in the system is the reservation step inside
`_auto_deliver`; it succeeds exactly when `quantity >= ordered quantity`
(decrementing by that amount), and on failure the whole call returns
with no state change and no effect. -/
theorem c3_quantity_never_negative (gen : String) (cfg : Config) (now : ℤ)
    (io : Bool) (orderNo : String) (s : MallState)
    (hnn : ∀ kv ∈ s.products, 0 ≤ kv.2.quantity) :
    (∀ kv ∈ (autoDeliver gen now io orderNo s).1.products, 0 ≤ kv.2.quantity) ∧
    (∀ kv ∈ (handlePaymentNotify gen cfg now io orderNo s).2.1.products,
      0 ≤ kv.2.quantity) ∧
    (∀ od p, lookupA orderNo s.orders = some od →
      lookupA od.productId s.products = some p → p.quantity < od.quantity →
      autoDeliver gen now io orderNo s = (s, [])) ∧
    (∀ od p, lookupA orderNo s.orders = some od →
      lookupA od.productId s.products = some p → ¬ p.quantity < od.quantity →
      lookupA od.productId (autoDeliver gen now io orderNo s).1.products
        = some { p with quantity := p.quantity - od.quantity }) := by
  refine ⟨autoDeliver_products_nonneg gen now io orderNo s hnn, ?_,
    fun od p hod hpp hq => autoDeliver_eq_short hod hpp hq,
    fun od p hod hpp hq => ?_⟩
  · cases hod : lookupA orderNo s.orders with
    | none => rw [handlePaymentNotify_unknown hod]; exact hnn
    | some od =>
      by_cases hp : od.status = "pending"
      · by_cases hd : od.deliveryType = "auto"
        · rw [handlePaymentNotify_eq_auto hod hp hd]
          exact autoDeliver_products_nonneg gen now io orderNo
            (paidState now io orderNo od s) (by simpa using hnn)
        · rw [handlePaymentNotify_eq_manual hod hp hd]
          simpa using hnn
      · rw [handlePaymentNotify_final hod hp]; exact hnn
  · rw [autoDeliver_eq_success hod hpp hq]
    simp

/-- Witness for C3 at the fixture state: the auto order `ORD1` (one
unit from a stock of five) leaves every quantity non-negative. -/
theorem c3_witness :
    (∀ kv ∈ baseState.products, 0 ≤ kv.2.quantity) ∧
    (∀ kv ∈ (handlePaymentNotify "G" cfg0 200 true "ORD1" baseState).2.1.products,
      0 ≤ kv.2.quantity) :=
  ⟨by decide,
   (c3_quantity_never_negative "G" cfg0 200 true "ORD1" baseState (by decide)).2.1⟩

/-- C5, counterexample: the paid auto order `ORDA` asks for 7 units but
only 5 are in stock.  The claim says the order must transition to
`"cancelled"` (actor system); the code's `_auto_deliver` merely logs and
returns, leaving the order `"paid"` — it is not cancelled, no delivery
effect is emitted, and the stock is untouched. -/
theorem c5_counterexample :
    (handlePaymentNotify "G" cfg0 200 true "ORDA" baseState).1 = true ∧
    Option.map Order.status
        (lookupA "ORDA" (handlePaymentNotify "G" cfg0 200 true "ORDA" baseState).2.1.orders)
      = some "paid" ∧
    Option.map Order.status
        (lookupA "ORDA" (handlePaymentNotify "G" cfg0 200 true "ORDA" baseState).2.1.orders)
      ≠ some "cancelled" ∧
    (handlePaymentNotify "G" cfg0 200 true "ORDA" baseState).2.1.products
      = baseState.products ∧
    (handlePaymentNotify "G" cfg0 200 true "ORDA" baseState).2.2 = [] := by
  refine ⟨by decide, by decide, by decide, by decide, by decide⟩

/-- Auto fulfillment aborted by the stock re-validation: the whole
callback result is `(True, paid-but-undelivered state, no effects)`. -/
theorem handlePaymentNotify_auto_short (gen : String) (cfg : Config)
    (now : ℤ) (io : Bool) (orderNo : String) (s : MallState) (od : Order)
    (p : Product) (hod : lookupA orderNo s.orders = some od)
    (hp : od.status = "pending") (hd : od.deliveryType = "auto")
    (hpp : lookupA od.productId s.products = some p)
    (hq : p.quantity < od.quantity) :
    handlePaymentNotify gen cfg now io orderNo s
      = (true, paidState now io orderNo od s, []) := by
  have hod1 : lookupA orderNo (paidState now io orderNo od s).orders
      = some { od with status := "paid", paidAt := some now } := by simp
  have hpp1 : lookupA ({ od with status := "paid", paidAt := some now } : Order).productId
      (paidState now io orderNo od s).products = some p := by simpa using hpp
  rw [handlePaymentNotify_eq_auto hod hp hd,
      @autoDeliver_eq_short gen now io orderNo _ _ _ hod1 hpp1 hq]

/-- Auto fulfillment passing the stock re-validation: the order ends
`"delivered"` and the product is decremented by the ordered quantity. -/
theorem handlePaymentNotify_auto_success (gen : String) (cfg : Config)
    (now : ℤ) (io : Bool) (orderNo : String) (s : MallState) (od : Order)
    (p : Product) (hod : lookupA orderNo s.orders = some od)
    (hp : od.status = "pending") (hd : od.deliveryType = "auto")
    (hpp : lookupA od.productId s.products = some p)
    (hq : ¬ p.quantity < od.quantity) :
    Option.map Order.status
        (lookupA orderNo (handlePaymentNotify gen cfg now io orderNo s).2.1.orders)
      = some "delivered" ∧
    lookupA od.productId (handlePaymentNotify gen cfg now io orderNo s).2.1.products
      = some { p with quantity := p.quantity - od.quantity } := by
  have hod1 : lookupA orderNo (paidState now io orderNo od s).orders
      = some { od with status := "paid", paidAt := some now } := by simp
  have hpp1 : lookupA ({ od with status := "paid", paidAt := some now } : Order).productId
      (paidState now io orderNo od s).products = some p := by simpa using hpp
  rw [handlePaymentNotify_eq_auto hod hp hd,
      @autoDeliver_eq_success gen now io orderNo _ _ _ hod1 hpp1 hq]
  constructor
  · rw [show ∀ x : MallState × List Effect, (true, x).2.1 = x.1 from fun _ => rfl]
    rw [autoDeliverFinish_lookup_self]
    simp
  · simp [autoDeliverFinish]

/-- C5, amended: auto fulfillment re-validates and decrements the
(single) product of the order; when re-validation fails, fulfillment
stops with no delivery effect and no inventory change, and the order
remains `"paid"` — it is NOT transitioned to `"cancelled"`.  When
re-validation succeeds, the stock is decremented and the order is
delivered (all-or-nothing for the order's single product line). -/
theorem c5_failed_revalidation_leaves_order_paid (gen : String) (cfg : Config)
    (now : ℤ) (io : Bool) (orderNo : String) (s : MallState) (od : Order)
    (p : Product) (hod : lookupA orderNo s.orders = some od)
    (hp : od.status = "pending") (hd : od.deliveryType = "auto")
    (hpp : lookupA od.productId s.products = some p) :
    (p.quantity < od.quantity →
      handlePaymentNotify gen cfg now io orderNo s
        = (true, paidState now io orderNo od s, []) ∧
      Option.map Order.status
          (lookupA orderNo (handlePaymentNotify gen cfg now io orderNo s).2.1.orders)
        = some "paid" ∧
      (handlePaymentNotify gen cfg now io orderNo s).2.1.products = s.products) ∧
    (¬ p.quantity < od.quantity →
      Option.map Order.status
          (lookupA orderNo (handlePaymentNotify gen cfg now io orderNo s).2.1.orders)
        = some "delivered" ∧
      lookupA od.productId (handlePaymentNotify gen cfg now io orderNo s).2.1.products
        = some { p with quantity := p.quantity - od.quantity }) := by
  constructor
  · intro hq
    rw [handlePaymentNotify_auto_short gen cfg now io orderNo s od p hod hp hd hpp hq]
    exact ⟨rfl, by simp, by simp⟩
  · intro hq
    exact handlePaymentNotify_auto_success gen cfg now io orderNo s od p hod hp hd hpp hq

/-- Witness for C5: the short-stock order `ORDA` stays paid; the
in-stock order `ORD1` is delivered with the stock decremented. -/
theorem c5_witness :
    handlePaymentNotify "G" cfg0 200 true "ORDA" baseState
      = (true, paidState 200 true "ORDA" ordAutoBig baseState, []) ∧
    Option.map Order.status
        (lookupA "ORD1" (handlePaymentNotify "G" cfg0 200 true "ORD1" baseState).2.1.orders)
      = some "delivered" :=
  ⟨((c5_failed_revalidation_leaves_order_paid "G" cfg0 200 true "ORDA" baseState
      ordAutoBig prodAuto (by decide) (by decide) (by decide) (by decide)).1
      (by decide)).1,
   ((c5_failed_revalidation_leaves_order_paid "G" cfg0 200 true "ORD1" baseState
      ordAuto prodAuto (by decide) (by decide) (by decide) (by decide)).2
      (by decide)).1⟩

/-! ## Products-frame lemmas: which operations touch inventory -/

theorem createFinalOrder_products_frame (cfg : Config) (now : ℤ)
    (io gok : Bool) (url : String) (t : TempOrder) (mname uid email : String)
    (s : MallState) :
    (createFinalOrder cfg now io gok url t mname uid email s).2.products
      = s.products := by
  unfold createFinalOrder
  rcases lookupA t.productId s.products with _ | p
  · rfl
  · by_cases hq : p.quantity < t.quantity
    · simp [hq]
    · by_cases hg : gok <;> simp [hq, hg]

theorem buyCart_products_frame (cfg : Config) (now : ℤ) (io gok : Bool)
    (url uid : String) (s : MallState) :
    (buyCart cfg now io gok url uid s).2.products = s.products := by
  unfold buyCart
  repeat' split
  all_goals simp

theorem cleanupExpiredOrders_products_frame (now : ℤ) (io : Bool)
    (s : MallState) :
    (cleanupExpiredOrders now io s).products = s.products := by
  unfold cleanupExpiredOrders
  split
  · rfl
  · simp

theorem paymentMonitorFire_products_frame (io : Bool) (orderNo : String)
    (s : MallState) :
    (paymentMonitorFire io orderNo s).products = s.products := by
  unfold paymentMonitorFire
  repeat' split
  all_goals simp

theorem cancelOrder_products_frame (now : ℤ) (io adm : Bool)
    (callerId orderNo : String) (s : MallState) :
    (cancelOrder now io callerId adm orderNo s).2.products = s.products := by
  unfold cancelOrder
  repeat' split
  all_goals simp

theorem deliverOrder_products_frame (now : ℤ) (io : Bool)
    (orderNo content : String) (s : MallState) :
    (deliverOrder now io orderNo content s).2.1.products = s.products := by
  unfold deliverOrder
  repeat' split
  all_goals simp

/-- C4, counterexample: the manual-delivery order `ORDM` is paid via the
callback and then delivered by the admin, and the product's quantity
stays 5 throughout — inventory is NOT decremented at order-paid time for
manual orders, contradicting the claim's universal "for every order". -/
theorem c4_counterexample :
    Option.map Order.status
        (lookupA "ORDM" (handlePaymentNotify "G" cfg0 200 true "ORDM" baseState).2.1.orders)
      = some "paid" ∧
    Option.map Product.quantity
        (lookupA "2" (handlePaymentNotify "G" cfg0 200 true "ORDM" baseState).2.1.products)
      = some 5 ∧
    (deliverOrder 300 true "ORDM" "CODE"
        (handlePaymentNotify "G" cfg0 200 true "ORDM" baseState).2.1).1
      = DeliverResult.delivered ∧
    Option.map Product.quantity
        (lookupA "2" (deliverOrder 300 true "ORDM" "CODE"
          (handlePaymentNotify "G" cfg0 200 true "ORDM" baseState).2.1).2.1.products)
      = some 5 ∧
    Option.map Product.quantity (lookupA "2" baseState.products) = some 5 := by
  refine ⟨by decide, by decide, by decide, by decide, by decide⟩

/-- C4, amended: creating an order (single purchase or cart checkout)
leaves all product quantities unchanged, and expiry (sweep or one-shot
monitor), cancellation and manual delivery perform no inventory action;
the only inventory decrement happens inside auto-delivery fulfillment,
immediately after the `pending → paid` transition — manual orders are
never decremented at all. -/
theorem c4_decrement_only_in_auto_fulfillment (gen : String) (cfg : Config)
    (now : ℤ) (io gok adm : Bool)
    (url mname uid email callerId content orderNo : String) (t : TempOrder)
    (s : MallState) :
    (createFinalOrder cfg now io gok url t mname uid email s).2.products
      = s.products ∧
    (buyCart cfg now io gok url uid s).2.products = s.products ∧
    (cleanupExpiredOrders now io s).products = s.products ∧
    (paymentMonitorFire io orderNo s).products = s.products ∧
    (cancelOrder now io callerId adm orderNo s).2.products = s.products ∧
    (deliverOrder now io orderNo content s).2.1.products = s.products ∧
    (∀ od p, lookupA orderNo s.orders = some od → od.status = "pending" →
      od.deliveryType = "auto" → lookupA od.productId s.products = some p →
      ¬ p.quantity < od.quantity →
      lookupA od.productId (handlePaymentNotify gen cfg now io orderNo s).2.1.products
        = some { p with quantity := p.quantity - od.quantity }) ∧
    (∀ od, lookupA orderNo s.orders = some od → od.status = "pending" →
      od.deliveryType ≠ "auto" →
      (handlePaymentNotify gen cfg now io orderNo s).2.1.products = s.products) := by
  refine ⟨createFinalOrder_products_frame .., buyCart_products_frame ..,
    cleanupExpiredOrders_products_frame .., paymentMonitorFire_products_frame ..,
    cancelOrder_products_frame .., deliverOrder_products_frame ..,
    fun od p hod hp hd hpp hq => ?_, fun od hod hp hd => ?_⟩
  · exact (handlePaymentNotify_auto_success gen cfg now io orderNo s od p
      hod hp hd hpp hq).2
  · rw [handlePaymentNotify_eq_manual hod hp hd]
    simp

/-- Witness for C4 at the fixture state: paying the auto order `ORD1`
decrements product 1 from 5 to 4, and the cancel path leaves products
untouched. -/
theorem c4_witness :
    lookupA "1" (handlePaymentNotify "G" cfg0 200 true "ORD1" baseState).2.1.products
      = some { prodAuto with quantity := prodAuto.quantity - ordAuto.quantity } ∧
    (handlePaymentNotify "G" cfg0 200 true "ORDM" baseState).2.1.products
      = baseState.products :=
  ⟨(c4_decrement_only_in_auto_fulfillment "G" cfg0 200 true true false
      "U" "M" "user1234" "e" "user1234" "C" "ORD1"
      ⟨"1", "AutoProd", 1, 10⟩ baseState).2.2.2.2.2.2.1 ordAuto prodAuto
      (by decide) (by decide) (by decide) (by decide) (by decide),
   (c4_decrement_only_in_auto_fulfillment "G" cfg0 200 true true false
      "U" "M" "user1234" "e" "user1234" "C" "ORDM"
      ⟨"1", "AutoProd", 1, 10⟩ baseState).2.2.2.2.2.2.2 ordManual
      (by decide) (by decide) (by decide)⟩

/-- C6: an unpaid pending order past its expiry deadline is set to
`"expired"` by the periodic sweep, and the one-shot payment monitor
expires a still-pending order when it fires; a payment notification
arriving for an expired order is rejected (`False`) with the state
untouched; and no notification — for this or any other order — can ever
move an order out of `"expired"`, so an expired order never becomes
paid. -/
theorem c6_no_payment_after_expiry (gen : String) (cfg : Config) (now : ℤ)
    (io : Bool) (orderNo target : String) (s : MallState) :
    (∀ od t, lookupA orderNo s.orders = some od → od.status = "pending" →
      od.expireTime = some t → t < now →
      Option.map Order.status (lookupA orderNo (cleanupExpiredOrders now io s).orders)
        = some "expired") ∧
    (∀ od, lookupA orderNo s.orders = some od → od.status = "pending" →
      Option.map Order.status (lookupA orderNo (paymentMonitorFire io orderNo s).orders)
        = some "expired") ∧
    (∀ od, lookupA orderNo s.orders = some od → od.status = "expired" →
      handlePaymentNotify gen cfg now io orderNo s = (false, s, [])) ∧
    (∀ od, lookupA target s.orders = some od → od.status = "expired" →
      Option.map Order.status
          (lookupA target (handlePaymentNotify gen cfg now io orderNo s).2.1.orders)
        = some "expired") := by
  refine ⟨fun od t hod hst het hlt => ?_, fun od hod hst => ?_,
    fun od hod hst => handlePaymentNotify_final hod (by simp [hst]),
    fun od hod hst => ?_⟩
  · have hexp : isExpiredPending now od = true := by
      simp [isExpiredPending, hst, het, hlt]
    unfold cleanupExpiredOrders
    rw [filter_not_isEmpty_of_lookupA hod _ hexp]
    simp only [Bool.false_eq_true, if_false, saveOrders_orders]
    rw [lookupA_map_expireOrder, hod]
    simp [hexp]
  · unfold paymentMonitorFire
    rw [hod]
    simp [hst]
  · by_cases h : target = orderNo
    · subst h
      rw [handlePaymentNotify_final hod (by simp [hst]), hod]
      simp [hst]
    · rw [handlePaymentNotify_lookup_ne gen cfg now io h, hod]
      simp [hst]

/-- Witness for C6: at `now = 200` the sweep expires `ORD1`
(deadline 160); a later valid notification for `ORD1` against the swept
state is rejected and the order stays `"expired"`; the one-shot monitor
expires the still-pending `ORDM`. -/
theorem c6_witness :
    Option.map Order.status
        (lookupA "ORD1" (cleanupExpiredOrders 200 true baseState).orders)
      = some "expired" ∧
    handlePaymentNotify "G" cfg0 300 true "ORD1" (cleanupExpiredOrders 200 true baseState)
      = (false, cleanupExpiredOrders 200 true baseState, []) ∧
    Option.map Order.status
        (lookupA "ORDM" (paymentMonitorFire true "ORDM" baseState).orders)
      = some "expired" :=
  ⟨(c6_no_payment_after_expiry "G" cfg0 200 true "ORD1" "X" baseState).1
      ordAuto 160 (by decide) (by decide) (by decide) (by decide),
   (c6_no_payment_after_expiry "G" cfg0 300 true "ORD1" "X"
      (cleanupExpiredOrders 200 true baseState)).2.2.1
      { ordAuto with status := "expired" } (by decide) (by decide),
   (c6_no_payment_after_expiry "G" cfg0 200 true "ORDM" "X" baseState).2.1
      ordManual (by decide) (by decide)⟩

/-- Any failing path of `buy_cart` (missing/unverified email, empty
cart, stock failure, no payment method, gateway failure) leaves the
whole state untouched. -/
theorem buyCart_gatewayFail_frame (cfg : Config) (now : ℤ) (io : Bool)
    (url uid : String) (s : MallState) :
    (buyCart cfg now io false url uid s).2 = s := by
  unfold buyCart
  repeat' split
  all_goals simp_all

/-- The state `buy_cart` leaves behind on full success: order stored,
orders saved, cart deleted. -/
def cartCreatedState (cfg : Config) (now : ℤ) (io : Bool)
    (url uid email mname : String) (cart : List CartItem) (s : MallState) :
    MallState :=
  let od := mkCartOrder cfg now url uid email mname cart
  let s1 := saveOrders io { s with orders := insertA (cartOrderNo now uid) od s.orders }
  { s1 with carts := removeA uid s1.carts }

@[simp] theorem cartCreatedState_orders (cfg : Config) (now : ℤ) (io : Bool)
    (url uid email mname : String) (cart : List CartItem) (s : MallState) :
    (cartCreatedState cfg now io url uid email mname cart s).orders
      = insertA (cartOrderNo now uid) (mkCartOrder cfg now url uid email mname cart)
          s.orders := by
  simp [cartCreatedState]

@[simp] theorem cartCreatedState_carts (cfg : Config) (now : ℤ) (io : Bool)
    (url uid email mname : String) (cart : List CartItem) (s : MallState) :
    (cartCreatedState cfg now io url uid email mname cart s).carts
      = removeA uid s.carts := by
  simp [cartCreatedState]

@[simp] theorem cartCreatedState_diskOrders_io (cfg : Config) (now : ℤ)
    (url uid email mname : String) (cart : List CartItem) (s : MallState) :
    (cartCreatedState cfg now true url uid email mname cart s).diskOrders
      = insertA (cartOrderNo now uid) (mkCartOrder cfg now url uid email mname cart)
          s.orders := by
  simp [cartCreatedState, saveOrders]

theorem buyCart_eq_created (cfg : Config) (now : ℤ) (io : Bool)
    (url uid : String) (s : MallState) (ue : UserEmail) (cart : List CartItem)
    (mid mname : String) (ms : List (String × String))
    (hue : lookupA uid s.userEmails = some ue) (hv : ue.verified = true)
    (hcart : lookupA uid s.carts = some cart) (hne : cart.isEmpty = false)
    (hchk : checkCartStock s.products cart = none)
    (hms : availableMethods s.paymentMethods = (mid, mname) :: ms) :
    buyCart cfg now io true url uid s
      = (.created (cartOrderNo now uid),
         cartCreatedState cfg now io url uid ue.email mname cart s) := by
  unfold buyCart
  simp [hue, hv, hcart, hne, hchk, hms, cartCreatedState]

/-- C7, counterexample: gateway succeeds but the `orders.json` write
fails (`_save_data` swallows the exception).  `buy_cart` still reports
the order as created and still clears the cart, yet the order is absent
from the durable store — so the cart is NOT "cleared only after the
order is durably recorded". -/
theorem c7_counterexample :
    (buyCart cfg0 500 false true "U" "user1234" cartState).1
      = CartBuyResult.created "CART5001234" ∧
    lookupA "user1234" (buyCart cfg0 500 false true "U" "user1234" cartState).2.carts
      = none ∧
    lookupA "CART5001234"
        (buyCart cfg0 500 false true "U" "user1234" cartState).2.diskOrders
      = none := by
  refine ⟨by decide, by decide, by decide⟩

/-- C7, amended: the persisted cart order's total equals the sum of its
line-item subtotals (`price × quantity` per item, the items being
exactly the cart); a failed gateway call leaves the cart (and the whole
state) unchanged with no order persisted; and on success the cart is
cleared after the order is recorded and the write-back attempted —
but the durable copy is only guaranteed when the underlying file write
succeeds (`io = true`), because `_save_data` swallows write failures. -/
theorem c7_cart_checkout (cfg : Config) (now : ℤ) (io : Bool)
    (url uid : String) (s : MallState) (ue : UserEmail) (cart : List CartItem)
    (mid mname : String) (ms : List (String × String))
    (hue : lookupA uid s.userEmails = some ue) (hv : ue.verified = true)
    (hcart : lookupA uid s.carts = some cart) (hne : cart.isEmpty = false)
    (hchk : checkCartStock s.products cart = none)
    (hms : availableMethods s.paymentMethods = (mid, mname) :: ms) :
    (buyCart cfg now io false url uid s = (.gatewayFailed, s)) ∧
    ((buyCart cfg now io true url uid s).1 = .created (cartOrderNo now uid)) ∧
    (∀ od, lookupA (cartOrderNo now uid) (buyCart cfg now io true url uid s).2.orders
        = some od →
      od.cartItems = some cart ∧
      od.amount = (cart.map (fun it => it.price * (it.quantity : ℚ))).sum) ∧
    lookupA uid (buyCart cfg now io true url uid s).2.carts = none ∧
    (io = true →
      lookupA (cartOrderNo now uid) (buyCart cfg now io true url uid s).2.diskOrders
        = some (mkCartOrder cfg now url uid ue.email mname cart)) := by
  have heq := buyCart_eq_created cfg now io url uid s ue cart mid mname ms
    hue hv hcart hne hchk hms
  refine ⟨?_, ?_, fun od hod => ?_, ?_, fun hio => ?_⟩
  · unfold buyCart
    simp [hue, hv, hcart, hne, hchk, hms]
  · rw [heq]
  · rw [heq] at hod
    simp only [cartCreatedState_orders, lookupA_insertA_self,
      Option.some.injEq] at hod
    subst hod
    exact ⟨rfl, rfl⟩
  · rw [heq]
    simp
  · subst hio
    rw [heq]
    simp

/-- Witness for C7 on the two-item fixture cart (totals 10×1 + 3×2 =
16). -/
theorem c7_witness :
    buyCart cfg0 500 true false "U" "user1234" cartState
      = (CartBuyResult.gatewayFailed, cartState) ∧
    (buyCart cfg0 500 true true "U" "user1234" cartState).1
      = CartBuyResult.created (cartOrderNo 500 "user1234") ∧
    lookupA "user1234" (buyCart cfg0 500 true true "U" "user1234" cartState).2.carts
      = none ∧
    lookupA (cartOrderNo 500 "user1234")
        (buyCart cfg0 500 true true "U" "user1234" cartState).2.diskOrders
      = some (mkCartOrder cfg0 500 "U" "user1234" "u@example.com" "支付宝" cartTwo) := by
  have h := c7_cart_checkout cfg0 500 true "U" "user1234" cartState ueVerified
    cartTwo "alipay" "支付宝" [] (by decide) (by decide) (by decide) (by decide)
    (by decide) (by decide)
  exact ⟨h.1, h.2.1, h.2.2.2.1, h.2.2.2.2 rfl⟩

/-- C8: `_save_data` catches every exception and only logs it, so a
failed durable write is invisible to the caller.  At the failing input
(gateway succeeds, the `orders.json` write fails, modelled by
`io = false`), `_create_final_order` still reports the order as created
and keeps it in memory, while the durable store is unchanged — the
operation reports success although the durable write did not happen,
and the same happens for `verify_email`'s write of the email binding. -/
theorem c8_save_failure_still_reports_success :
    (createFinalOrder cfg0 100 false true "URL" ⟨"1", "AutoProd", 1, 10⟩
        "支付宝" "user1234" "u@example.com" baseState).1
      = CreateResult.created "ORD1001234" ∧
    Option.map Order.status
        (lookupA "ORD1001234"
          (createFinalOrder cfg0 100 false true "URL" ⟨"1", "AutoProd", 1, 10⟩
            "支付宝" "user1234" "u@example.com" baseState).2.orders)
      = some "pending" ∧
    (createFinalOrder cfg0 100 false true "URL" ⟨"1", "AutoProd", 1, 10⟩
        "支付宝" "user1234" "u@example.com" baseState).2.diskOrders
      = baseState.diskOrders ∧
    (verifyEmail 1100 false "u9" "123456"
        (bindEmail true true "123456" 1000 "u9" "x@example.com" baseState).2.1).1
      = VerifyResult.verified ∧
    (verifyEmail 1100 false "u9" "123456"
        (bindEmail true true "123456" 1000 "u9" "x@example.com" baseState).2.1).2.diskUserEmails
      = baseState.diskUserEmails := by
  refine ⟨by decide, by decide, by decide, by decide, by decide⟩

/-- C9, counterexample: the verification challenge lives only in the
in-memory `temp_orders` dict.  After a bind and a process restart the
challenge is gone, and the correct code is rejected — it does NOT
survive a restart as the claim requires. -/
theorem c9_counterexample :
    (bindEmail true true "123456" 1000 "u9" "x@example.com" baseState).1
      = BindResult.codeSent ∧
    lookupA "verify_u9"
        (bindEmail true true "123456" 1000 "u9" "x@example.com" baseState).2.1.tempVerify
      = some { code := "123456", email := "x@example.com", expireTime := 1600 } ∧
    lookupA "verify_u9"
        (restart (bindEmail true true "123456" 1000 "u9" "x@example.com" baseState).2.1).tempVerify
      = none ∧
    (verifyEmail 1100 true "u9" "123456"
        (restart (bindEmail true true "123456" 1000 "u9" "x@example.com" baseState).2.1)).1
      = VerifyResult.expiredOrMissing := by
  refine ⟨by decide, by decide, by decide, by decide⟩

/-- C9, amended: the bind request stores the challenge (user id keyed,
target email, one-time code, 10-minute expiry) in the in-memory map
only, so it does NOT survive a process restart; it is consumed exactly
by a single correct in-time verification (which also stores the
verified email binding, and makes a second attempt fail), it is
discarded when found expired at verification time, and a wrong code
leaves it in place. -/
theorem c9_challenge_in_memory_only (code : String) (now now₂ : ℤ)
    (io io₂ : Bool) (uid email : String) (s : MallState) :
    (lookupA ("verify_" ++ uid)
        (bindEmail true true code now uid email s).2.1.tempVerify
      = some { code := code, email := email, expireTime := now + 600 }) ∧
    ((restart ((bindEmail true true code now uid email s).2.1)).tempVerify = []) ∧
    (∀ vd, lookupA ("verify_" ++ uid) s.tempVerify = some vd →
      ¬ vd.expireTime < now → vd.code = code →
      (verifyEmail now io uid code s).1 = .verified ∧
      lookupA ("verify_" ++ uid) (verifyEmail now io uid code s).2.tempVerify = none ∧
      lookupA uid (verifyEmail now io uid code s).2.userEmails
        = some { userId := uid, email := vd.email, verified := true
                 verifiedAt := some now } ∧
      (verifyEmail now₂ io₂ uid code ((verifyEmail now io uid code s).2)).1
        = .expiredOrMissing) ∧
    (∀ vd, lookupA ("verify_" ++ uid) s.tempVerify = some vd →
      vd.expireTime < now →
      (verifyEmail now io uid code s).1 = .expiredOrMissing ∧
      lookupA ("verify_" ++ uid) (verifyEmail now io uid code s).2.tempVerify = none) ∧
    (∀ vd, lookupA ("verify_" ++ uid) s.tempVerify = some vd →
      ¬ vd.expireTime < now → vd.code ≠ code →
      verifyEmail now io uid code s = (.wrongCode, s)) := by
  refine ⟨?_, ?_, fun vd hvd hexp hcode => ⟨?_, ?_, ?_, ?_⟩,
    fun vd hvd hexp => ⟨?_, ?_⟩, fun vd hvd hexp hcode => ?_⟩
  · simp [bindEmail]
  · simp [restart]
  · simp [verifyEmail, hvd, hexp, hcode]
  · simp [verifyEmail, hvd, hexp, hcode]
  · simp [verifyEmail, hvd, hexp, hcode]
  · simp [verifyEmail, hvd, hexp, hcode]
  · simp [verifyEmail, hvd, hexp]
  · simp [verifyEmail, hvd, hexp]
  · simp [verifyEmail, hvd, hexp, hcode]

/-- Witness for C9: binding at time 1000 stores the challenge with
expiry 1600, and verifying at 1100 with the correct code consumes it. -/
theorem c9_witness :
    (verifyEmail 1100 true "u9" "123456"
        (bindEmail true true "123456" 1000 "u9" "x@example.com" baseState).2.1).1
      = VerifyResult.verified ∧
    lookupA "verify_u9"
        (verifyEmail 1100 true "u9" "123456"
          (bindEmail true true "123456" 1000 "u9" "x@example.com" baseState).2.1).2.tempVerify
      = none := by
  have h := (c9_challenge_in_memory_only "123456" 1100 1200 true true "u9"
      "x@example.com"
      ((bindEmail true true "123456" 1000 "u9" "x@example.com" baseState).2.1)).2.2.1
    { code := "123456", email := "x@example.com", expireTime := 1600 }
    (by decide) (by decide) (by decide)
  exact ⟨h.1, h.2.1⟩

end Mall
